/-
Verification of the command-to-signal translation layer of donkeycar's
`donkeycar/parts/actuator.py`: the differential-drive arbiter (AMSL293D),
the PWM steering and throttle actuators (PWMSteering, PWMThrottle) and the
PCA9685 driver wrapper.

Numbers are embedded as rationals (Python floats idealised as exact
arithmetic); Python `int()` as truncation toward zero; the raising of a
ValueError as an explicit error component of the result; calls into the
vendor driver libraries (AMSpi, Adafruit_PCA9685) as emitted commands or
as an injected behaviour of the external bus.
-/
import Mathlib

namespace Donkeycar

/-- Python `int(q)`: truncation toward zero. -/
def pyInt (q : ℚ) : ℤ :=
  if 0 ≤ q then ⌊q⌋ else ⌈q⌉

/-- Modelled from the spec: `dk.util.data.map_range` lives in
`donkeycar/util/data.py`, which is not among the provided source files; the
spec (§4.1 RangeMapper) gives it as the linear interpolation
`out_min + (value - in_min) * (out_max - out_min) / (in_max - in_min)`
with no clamping. -/
def map_range (value in_min in_max out_min out_max : ℚ) : ℚ :=
  out_min + (value - in_min) * (out_max - out_min) / (in_max - in_min)

/-! ## AMSL293D: the differential-drive arbiter -/

namespace AMSL293D

/-- The mutable fields of an `AMSL293D` instance: `self.throttleL` and
`self.throttleR`, both initialised to 0 in `__init__`. -/
structure State where
  throttleL : ℚ
  throttleR : ℚ
deriving DecidableEq, Repr

/-- One call into the AMSpi library: `run_dc_motors` takes a list of motor
ids, `run_dc_motor` a single one; both take a speed and a clockwise flag.
`DC_Motor_1 .. DC_Motor_4` are embedded as the ids 1..4. -/
inductive MotorCmd where
  | runDCMotors (motors : List ℕ) (speed : ℤ) (clockwise : Bool)
  | runDCMotor (motor : ℕ) (speed : ℤ) (clockwise : Bool)
deriving DecidableEq, Repr

/-- `AMSL293D.convert`: `int(dk.util.data.map_range(abs(value), 0, 1, 0, 100))`. -/
def convert (value : ℚ) : ℤ :=
  pyInt (map_range |value| 0 1 0 100)

/-- `AMSL293D.runLeftMotors`: one `run_dc_motors` call on DC_Motor_1 and
DC_Motor_2 with `speed = self.convert(abs(throttle))` and
`clockwise = throttle > 0`. -/
def runLeftMotors (throttle : ℚ) : List MotorCmd :=
  [.runDCMotors [1, 2] (convert |throttle|) (decide (throttle > 0))]

/-- `AMSL293D.runRightMotors`: two `run_dc_motor` calls, DC_Motor_3 with
`clockwise = throttle > 0` and DC_Motor_4 with
`clockwise = not (throttle > 0)`, both at `speed = self.convert(abs(throttle))`. -/
def runRightMotors (throttle : ℚ) : List MotorCmd :=
  [.runDCMotor 3 (convert |throttle|) (decide (throttle > 0)),
   .runDCMotor 4 (convert |throttle|) (! decide (throttle > 0))]

/-- What one `run` call leaves behind: the instance state at return (or at
the point the exception left the method), the AMSpi calls issued, and the
message of the raised ValueError if any. -/
structure RunOutcome where
  state : State
  cmds : List MotorCmd
  error : Option String
deriving DecidableEq, Repr

/-- The `if/elif` chain of `AMSL293D.run` that assigns `self.throttleL` and
`self.throttleR`; when no branch matches, the fields keep their old values. -/
def quadrantUpdate (steering throttle : ℚ) (st : State) : State :=
  if steering = 0 then
    ⟨throttle, throttle⟩
  else if steering > 0 ∧ throttle > 0 then       -- Quadrant 1
    ⟨throttle, throttle - steering⟩
  else if steering < 0 ∧ throttle > 0 then       -- Quadrant 2
    ⟨throttle + steering, throttle⟩
  else if steering > 0 ∧ throttle < 0 then       -- Quadrant 4
    ⟨throttle, throttle + steering⟩
  else if steering < 0 ∧ throttle < 0 then       -- Quadrant 3
    ⟨throttle - steering, throttle⟩
  else
    st

/-- `AMSL293D.run(self, steering, throttle)`, transcribed clause for clause:
the two bound checks raise before anything else; the `if/elif` chain
(`quadrantUpdate`) assigns `throttleL`/`throttleR`; finally
`runLeftMotors(self.throttleL)` and `runRightMotors(self.throttleR)` are
issued with the just-updated fields. -/
def run (steering throttle : ℚ) (st : State) : RunOutcome :=
  if throttle > 1 ∨ throttle < -1 then
    ⟨st, [], some "Speed must be between 1(forward) and -1(reverse)"⟩
  else if steering > 1 ∨ steering < -1 then
    ⟨st, [], some "Steering must be between 1 and -1"⟩
  else
    ⟨quadrantUpdate steering throttle st,
     runLeftMotors (quadrantUpdate steering throttle st).throttleL ++
       runRightMotors (quadrantUpdate steering throttle st).throttleR,
     none⟩

end AMSL293D

/-! ## PCA9685: the PWM driver wrapper -/

namespace PCA9685

/-- Behaviour of the external `Adafruit_PCA9685` bus write for one tick:
either the write goes through or the library raises an OSError. -/
inductive BusOutcome where
  | ok
  | osError (msg : String)
deriving DecidableEq, Repr

/-- The external call `self.pwm.set_pwm(self.channel, 0, pulse)`: succeeds
or raises an OSError, per the injected bus behaviour. -/
def set_pwm (b : BusOutcome) (pulse : ℚ) : Except String ℚ :=
  match b with
  | .ok => .ok pulse
  | .osError msg => .error msg

/-- What one `set_pulse` call did: the pulse actually written to the
hardware (none if the bus write failed) and the log lines printed. -/
structure SetPulseResult where
  applied : Option ℚ
  logged : List String
deriving DecidableEq, Repr

/-- The log line printed by the `except OSError` handler. -/
def pwmErrorLog (msg : String) : String :=
  "Unexpected issue setting PWM (check wires to motor board): " ++ msg

/-- `PCA9685.set_pulse`: `try: set_pwm(...) except OSError as err: print(...)`.
The result type allows an escaping exception (`Except.error`), but the
handler converts the OSError into a log line and a normal return. -/
def set_pulse (b : BusOutcome) (pulse : ℚ) : Except String SetPulseResult :=
  match set_pwm b pulse with
  | .ok p => .ok ⟨some p, []⟩
  | .error msg => .ok ⟨none, [pwmErrorLog msg]⟩

end PCA9685

/-! ## PWMSteering -/

/-- The configuration a `PWMSteering` instance holds. -/
structure PWMSteering where
  left_pulse : ℚ
  right_pulse : ℚ
deriving DecidableEq, Repr

namespace PWMSteering

def LEFT_ANGLE : ℚ := -1
def RIGHT_ANGLE : ℚ := 1

/-- `PWMSteering.run(self, angle)`: the pulse forwarded to
`controller.set_pulse`, namely
`map_range(angle, LEFT_ANGLE, RIGHT_ANGLE, left_pulse, right_pulse)`. -/
def run (self : PWMSteering) (angle : ℚ) : ℚ :=
  map_range angle LEFT_ANGLE RIGHT_ANGLE self.left_pulse self.right_pulse

/-- `PWMSteering.shutdown(self)`: `self.run(0)`. -/
def shutdown (self : PWMSteering) : ℚ :=
  self.run 0

/-- `PWMSteering.run` with a `PCA9685` controller attached: the computed
pulse is handed to the driver's `set_pulse`. -/
def run_on (b : PCA9685.BusOutcome) (self : PWMSteering) (angle : ℚ) :
    Except String PCA9685.SetPulseResult :=
  PCA9685.set_pulse b (self.run angle)

end PWMSteering

/-! ## PWMThrottle -/

/-- The configuration a `PWMThrottle` instance holds. -/
structure PWMThrottle where
  max_pulse : ℚ
  min_pulse : ℚ
  zero_pulse : ℚ
deriving DecidableEq, Repr

namespace PWMThrottle

def MIN_THROTTLE : ℚ := -1
def MAX_THROTTLE : ℚ := 1

/-- The observable effects of `PWMThrottle.__init__` after storing the
configuration: a `set_pulse` to the driver and a `time.sleep`. -/
inductive InitEvent where
  | setPulse (pulse : ℚ)
  | sleepSeconds (s : ℚ)
deriving DecidableEq, Repr

def InitEvent.isSetPulse : InitEvent → Bool
  | .setPulse _ => true
  | .sleepSeconds _ => false

/-- `PWMThrottle.__init__`: after storing the pulses it runs
`self.controller.set_pulse(self.zero_pulse)` then `time.sleep(1)`. -/
def initEvents (self : PWMThrottle) : List InitEvent :=
  [.setPulse self.zero_pulse, .sleepSeconds 1]

/-- `PWMThrottle.run(self, throttle)`: the pulse forwarded to
`controller.set_pulse`; the branch `throttle > 0` uses
`map_range(throttle, 0, MAX_THROTTLE, zero_pulse, max_pulse)`, the `else`
branch `map_range(throttle, MIN_THROTTLE, 0, min_pulse, zero_pulse)`. -/
def run (self : PWMThrottle) (throttle : ℚ) : ℚ :=
  if throttle > 0 then
    map_range throttle 0 MAX_THROTTLE self.zero_pulse self.max_pulse
  else
    map_range throttle MIN_THROTTLE 0 self.min_pulse self.zero_pulse

/-- `PWMThrottle.shutdown(self)`: `self.run(0)`. -/
def shutdown (self : PWMThrottle) : ℚ :=
  self.run 0

/-- `PWMThrottle.run` with a `PCA9685` controller attached. -/
def run_on (b : PCA9685.BusOutcome) (self : PWMThrottle) (throttle : ℚ) :
    Except String PCA9685.SetPulseResult :=
  PCA9685.set_pulse b (self.run throttle)

/-- A whole lifecycle: construction followed by a sequence of `run` calls,
as the event trace seen by the driver. -/
def lifecycle (self : PWMThrottle) (throttles : List ℚ) : List InitEvent :=
  self.initEvents ++ throttles.map (fun t => .setPulse (self.run t))

end PWMThrottle

/-! ## Theorems -/

/-- C3: for every throttle in [-1, 1], `PWMThrottle.run` is the
piecewise-linear map whose positive branch interpolates [0, 1] to
[zero_pulse, max_pulse] and whose nonpositive branch (taken at exactly 0
too) interpolates [-1, 0] to [min_pulse, zero_pulse]; hence run 0 =
zero_pulse, run 1 = max_pulse and run (-1) = min_pulse for every
configuration. -/
theorem pwmthrottle_run_piecewise (self : PWMThrottle) (t : ℚ)
    (hlo : -1 ≤ t) (hhi : t ≤ 1) :
    (t > 0 → self.run t = self.zero_pulse + t * (self.max_pulse - self.zero_pulse)) ∧
    (t ≤ 0 → self.run t = self.min_pulse + (t + 1) * (self.zero_pulse - self.min_pulse)) ∧
    self.run 0 = self.zero_pulse ∧
    self.run 1 = self.max_pulse ∧
    self.run (-1) = self.min_pulse := by
  refine ⟨?_, ?_, ?_, ?_, ?_⟩
  · intro ht
    rw [PWMThrottle.run, if_pos ht, map_range, PWMThrottle.MAX_THROTTLE]
    ring
  · intro ht
    rw [PWMThrottle.run, if_neg (not_lt.mpr ht), map_range, PWMThrottle.MIN_THROTTLE]
    ring
  · rw [PWMThrottle.run, if_neg (by norm_num), map_range, PWMThrottle.MIN_THROTTLE]
    ring
  · rw [PWMThrottle.run, if_pos (by norm_num), map_range, PWMThrottle.MAX_THROTTLE]
    ring
  · rw [PWMThrottle.run, if_neg (by norm_num), map_range, PWMThrottle.MIN_THROTTLE]
    ring

/-- Witness for C3: the configuration (max_pulse 300, min_pulse 490,
zero_pulse 350) at throttle 1/2 gives pulse 325. -/
theorem pwmthrottle_run_piecewise_witness :
    (-1 : ℚ) ≤ 1/2 ∧ (1/2 : ℚ) ≤ 1 ∧
    (PWMThrottle.mk 300 490 350).run (1/2) = 325 :=
  ⟨by norm_num, by norm_num, by
    have h := (pwmthrottle_run_piecewise ⟨300, 490, 350⟩ (1/2)
      (by norm_num) (by norm_num)).1 (by norm_num)
    rw [h]; norm_num⟩

/-- C4: for every configured left_pulse and right_pulse (in either
numerical order), `PWMSteering.run` maps the angle linearly from [-1, 1] to
[left_pulse, right_pulse]: run (-1) = left_pulse, run 1 = right_pulse and
run 0 = (left_pulse + right_pulse) / 2. -/
theorem pwmsteering_run_linear (self : PWMSteering) :
    (∀ a : ℚ, self.run a =
      self.left_pulse + (a + 1) * (self.right_pulse - self.left_pulse) / 2) ∧
    self.run (-1) = self.left_pulse ∧
    self.run 1 = self.right_pulse ∧
    self.run 0 = (self.left_pulse + self.right_pulse) / 2 := by
  have hform : ∀ a : ℚ, self.run a =
      self.left_pulse + (a + 1) * (self.right_pulse - self.left_pulse) / 2 := by
    intro a
    rw [PWMSteering.run, map_range, PWMSteering.LEFT_ANGLE, PWMSteering.RIGHT_ANGLE]
    ring
  refine ⟨hform, ?_, ?_, ?_⟩
  · rw [hform]; ring
  · rw [hform]; ring
  · rw [hform]; ring

/-- C5: on both actuators, `shutdown` is the same call as `run 0`, so it
sends exactly the pulse `run 0` sends: the configured midpoint for
steering, the configured zero_pulse for throttle. -/
theorem shutdown_eq_run_zero :
    (∀ s : PWMSteering, s.shutdown = s.run 0) ∧
    (∀ th : PWMThrottle, th.shutdown = th.run 0) ∧
    (∀ s : PWMSteering, s.shutdown = (s.left_pulse + s.right_pulse) / 2) ∧
    (∀ th : PWMThrottle, th.shutdown = th.zero_pulse) := by
  refine ⟨fun s => rfl, fun th => rfl, ?_, ?_⟩
  · intro s
    exact (pwmsteering_run_linear s).2.2.2
  · intro th
    exact (pwmthrottle_run_piecewise th 0 (by norm_num) (by norm_num)).2.2.1

/-- C6: if the bus write inside `PCA9685.set_pulse` raises an OSError, the
handler catches it, logs the message, applies no pulse, and the call
returns normally; composed under either actuator's `run`, no error ever
propagates out. -/
theorem pca9685_set_pulse_degrades :
    (∀ (msg : String) (pulse : ℚ),
      PCA9685.set_pulse (.osError msg) pulse =
        .ok ⟨none, [PCA9685.pwmErrorLog msg]⟩) ∧
    (∀ (b : PCA9685.BusOutcome) (s : PWMSteering) (a : ℚ),
      ∃ r, PWMSteering.run_on b s a = .ok r) ∧
    (∀ (b : PCA9685.BusOutcome) (th : PWMThrottle) (t : ℚ),
      ∃ r, PWMThrottle.run_on b th t = .ok r) := by
  refine ⟨fun msg pulse => rfl, ?_, ?_⟩
  · intro b s a
    cases b with
    | ok => exact ⟨_, rfl⟩
    | osError msg => exact ⟨_, rfl⟩
  · intro b th t
    cases b with
    | ok => exact ⟨_, rfl⟩
    | osError msg => exact ⟨_, rfl⟩

/-- C7: constructing a ThrottleActuator emits exactly one `set_pulse`,
carrying zero_pulse, followed by the fixed one-second sleep; in a lifecycle
of construction followed by any sequence of `run` calls, those two
construction effects come before every run effect. -/
theorem pwmthrottle_init_calibrates (self : PWMThrottle) (ts : List ℚ) :
    self.initEvents = [.setPulse self.zero_pulse, .sleepSeconds 1] ∧
    (self.initEvents.filter PWMThrottle.InitEvent.isSetPulse) =
      [.setPulse self.zero_pulse] ∧
    (self.lifecycle ts).take 2 = [.setPulse self.zero_pulse, .sleepSeconds 1] := by
  refine ⟨rfl, rfl, ?_⟩
  rw [PWMThrottle.lifecycle, PWMThrottle.initEvents]
  rfl

/-- C1: for |steering| ≤ 1 and |throttle| ≤ 1, `AMSL293D.run` computes the
left/right throttle pair by quadrant blending: steering = 0 gives left =
right = throttle; quadrant 1 (s > 0, t > 0) gives (t, t - s); quadrant 2
(s < 0, t > 0) gives (t + s, t); quadrant 4 (s > 0, t < 0) gives
(t, t + s); quadrant 3 (s < 0, t < 0) gives (t - s, t). -/
theorem amsl293d_run_quadrant_blending (s t : ℚ) (st : AMSL293D.State)
    (hs : |s| ≤ 1) (ht : |t| ≤ 1) :
    (s = 0 → (AMSL293D.run s t st).state.throttleL = t ∧
             (AMSL293D.run s t st).state.throttleR = t) ∧
    (s > 0 → t > 0 → (AMSL293D.run s t st).state.throttleL = t ∧
                     (AMSL293D.run s t st).state.throttleR = t - s) ∧
    (s < 0 → t > 0 → (AMSL293D.run s t st).state.throttleL = t + s ∧
                     (AMSL293D.run s t st).state.throttleR = t) ∧
    (s > 0 → t < 0 → (AMSL293D.run s t st).state.throttleL = t ∧
                     (AMSL293D.run s t st).state.throttleR = t + s) ∧
    (s < 0 → t < 0 → (AMSL293D.run s t st).state.throttleL = t - s ∧
                     (AMSL293D.run s t st).state.throttleR = t) := by
  rw [abs_le] at hs ht
  have hT : ¬(t > 1 ∨ t < -1) := by push_neg; exact ⟨ht.2, ht.1⟩
  have hS : ¬(s > 1 ∨ s < -1) := by push_neg; exact ⟨hs.2, hs.1⟩
  rw [AMSL293D.run, if_neg hT, if_neg hS]
  refine ⟨?_, ?_, ?_, ?_, ?_⟩
  · intro h0
    rw [AMSL293D.quadrantUpdate, if_pos h0]
    exact ⟨rfl, rfl⟩
  · intro hs0 ht0
    rw [AMSL293D.quadrantUpdate, if_neg (ne_of_gt hs0), if_pos ⟨hs0, ht0⟩]
    exact ⟨rfl, rfl⟩
  · intro hs0 ht0
    have h1 : ¬(s > 0 ∧ t > 0) := fun h => absurd hs0 (not_lt.mpr h.1.le)
    rw [AMSL293D.quadrantUpdate, if_neg (ne_of_lt hs0), if_neg h1, if_pos ⟨hs0, ht0⟩]
    exact ⟨rfl, rfl⟩
  · intro hs0 ht0
    have h1 : ¬(s > 0 ∧ t > 0) := fun h => absurd ht0 (not_lt.mpr h.2.le)
    have h2 : ¬(s < 0 ∧ t > 0) := fun h => absurd ht0 (not_lt.mpr h.2.le)
    rw [AMSL293D.quadrantUpdate, if_neg (ne_of_gt hs0), if_neg h1, if_neg h2,
      if_pos ⟨hs0, ht0⟩]
    exact ⟨rfl, rfl⟩
  · intro hs0 ht0
    have h1 : ¬(s > 0 ∧ t > 0) := fun h => absurd hs0 (not_lt.mpr h.1.le)
    have h2 : ¬(s < 0 ∧ t > 0) := fun h => absurd ht0 (not_lt.mpr h.2.le)
    have h3 : ¬(s > 0 ∧ t < 0) := fun h => absurd hs0 (not_lt.mpr h.1.le)
    rw [AMSL293D.quadrantUpdate, if_neg (ne_of_lt hs0), if_neg h1, if_neg h2,
      if_neg h3, if_pos ⟨hs0, ht0⟩]
    exact ⟨rfl, rfl⟩

/-- Witness for C1: the spec's quadrant-1 example, steering 3/10 and
throttle 1/2 from state (0, 0), yields left 1/2 and right 1/5. -/
theorem amsl293d_run_quadrant_blending_witness :
    |(3/10 : ℚ)| ≤ 1 ∧ |(1/2 : ℚ)| ≤ 1 ∧
    (AMSL293D.run (3/10) (1/2) ⟨0, 0⟩).state.throttleL = 1/2 ∧
    (AMSL293D.run (3/10) (1/2) ⟨0, 0⟩).state.throttleR = 1/5 :=
  ⟨abs_le.mpr (by norm_num), abs_le.mpr (by norm_num), by
    have h := (amsl293d_run_quadrant_blending (3/10) (1/2) ⟨0, 0⟩
      (abs_le.mpr (by norm_num)) (abs_le.mpr (by norm_num))).2.1
      (by norm_num) (by norm_num)
    exact ⟨h.1, by rw [h.2]; norm_num⟩⟩

/-- C2: if |throttle| > 1 or |steering| > 1, `AMSL293D.run` raises a
ValueError and neither blends nor dispatches: the outcome carries an error
message and an empty command list. -/
theorem amsl293d_run_rejects (s t : ℚ) (st : AMSL293D.State)
    (h : |t| > 1 ∨ |s| > 1) :
    (AMSL293D.run s t st).error.isSome = true ∧
    (AMSL293D.run s t st).cmds = [] := by
  by_cases hT : t > 1 ∨ t < -1
  · rw [AMSL293D.run, if_pos hT]
    exact ⟨rfl, rfl⟩
  · have hS : s > 1 ∨ s < -1 := by
      rcases h with h | h
      · exact absurd ((lt_abs.mp h).imp id (by intro h1; linarith)) hT
      · exact (lt_abs.mp h).imp id (by intro h1; linarith)
    rw [AMSL293D.run, if_neg hT, if_pos hS]
    exact ⟨rfl, rfl⟩

/-- Witness for C2: the spec's two rejection examples, (steering 3/2,
throttle 0) and (steering 0, throttle -2), both from state (0, 0). -/
theorem amsl293d_run_rejects_witness :
    ((|(0 : ℚ)| > 1 ∨ |(3/2 : ℚ)| > 1) ∧
      (AMSL293D.run (3/2) 0 ⟨0, 0⟩).error.isSome = true ∧
      (AMSL293D.run (3/2) 0 ⟨0, 0⟩).cmds = []) ∧
    ((|(-2 : ℚ)| > 1 ∨ |(0 : ℚ)| > 1) ∧
      (AMSL293D.run 0 (-2) ⟨0, 0⟩).error.isSome = true ∧
      (AMSL293D.run 0 (-2) ⟨0, 0⟩).cmds = []) :=
  ⟨⟨Or.inr (lt_abs.mpr (Or.inl (by norm_num))),
    amsl293d_run_rejects (3/2) 0 ⟨0, 0⟩ (Or.inr (lt_abs.mpr (Or.inl (by norm_num))))⟩,
   ⟨Or.inl (lt_abs.mpr (Or.inr (by norm_num))),
    amsl293d_run_rejects 0 (-2) ⟨0, 0⟩ (Or.inl (lt_abs.mpr (Or.inr (by norm_num))))⟩⟩

/-- C8: per-side dispatch converts each side's command to the magnitude
percentage ⌊|value| · 100⌋ (the linear [0,1] → [0,100] map applied to the
absolute value) with direction flag `value > 0`; the two right-side motors
get the same magnitude, and the second right motor's direction flag is the
negation of the first's. -/
theorem amsl293d_dispatch_polarity (t : ℚ) :
    AMSL293D.convert t = pyInt (|t| * 100) ∧
    AMSL293D.runLeftMotors t =
      [.runDCMotors [1, 2] (pyInt (|t| * 100)) (decide (t > 0))] ∧
    AMSL293D.runRightMotors t =
      [.runDCMotor 3 (pyInt (|t| * 100)) (decide (t > 0)),
       .runDCMotor 4 (pyInt (|t| * 100)) (! decide (t > 0))] := by
  have hconv : ∀ v : ℚ, AMSL293D.convert v = pyInt (|v| * 100) := by
    intro v
    rw [AMSL293D.convert, map_range]
    norm_num
  refine ⟨hconv t, ?_, ?_⟩
  · rw [AMSL293D.runLeftMotors, hconv, abs_abs]
  · rw [AMSL293D.runRightMotors, hconv, abs_abs]

/-- C9: with throttle exactly 0 and steering nonzero (within bounds), no
branch of the `if/elif` chain matches: the stored throttleL/throttleR keep
their previous values and the motors are driven with those stale values. -/
theorem amsl293d_run_zero_throttle_stale (s : ℚ) (st : AMSL293D.State)
    (h0 : 0 < |s|) (h1 : |s| ≤ 1) :
    AMSL293D.run s 0 st =
      ⟨st, AMSL293D.runLeftMotors st.throttleL ++
             AMSL293D.runRightMotors st.throttleR, none⟩ := by
  rw [abs_le] at h1
  have hs0 : s ≠ 0 := by
    intro h
    rw [h] at h0
    simp at h0
  have hS : ¬(s > 1 ∨ s < -1) := by push_neg; exact ⟨h1.2, h1.1⟩
  have hupd : AMSL293D.quadrantUpdate s 0 st = st := by
    rw [AMSL293D.quadrantUpdate, if_neg hs0,
      if_neg (fun h : s > 0 ∧ (0 : ℚ) > 0 => absurd h.2 (lt_irrefl 0)),
      if_neg (fun h : s < 0 ∧ (0 : ℚ) > 0 => absurd h.2 (lt_irrefl 0)),
      if_neg (fun h : s > 0 ∧ (0 : ℚ) < 0 => absurd h.2 (lt_irrefl 0)),
      if_neg (fun h : s < 0 ∧ (0 : ℚ) < 0 => absurd h.2 (lt_irrefl 0))]
  rw [AMSL293D.run, if_neg (by norm_num), if_neg hS, hupd]

/-- Witness for C9: steering 1/2, throttle 0, from the stale state
(2/5, -1/4): the state is unchanged and the motors are driven with 2/5 and
-1/4. -/
theorem amsl293d_run_zero_throttle_stale_witness :
    0 < |(1/2 : ℚ)| ∧ |(1/2 : ℚ)| ≤ 1 ∧
    AMSL293D.run (1/2) 0 ⟨2/5, -1/4⟩ =
      ⟨⟨2/5, -1/4⟩, AMSL293D.runLeftMotors (2/5) ++
        AMSL293D.runRightMotors (-1/4), none⟩ :=
  ⟨abs_pos.mpr (by norm_num), abs_le.mpr (by norm_num),
    amsl293d_run_zero_throttle_stale (1/2) ⟨2/5, -1/4⟩
      (abs_pos.mpr (by norm_num)) (abs_le.mpr (by norm_num))⟩

/-- C10: on out-of-range input the validation raises before any assignment
or dispatch: the stored state is returned unchanged and no motor command is
issued. -/
theorem amsl293d_run_invalid_is_atomic (s t : ℚ) (st : AMSL293D.State)
    (h : |t| > 1 ∨ |s| > 1) :
    (AMSL293D.run s t st).state = st ∧
    (AMSL293D.run s t st).cmds = [] ∧
    (AMSL293D.run s t st).error.isSome = true := by
  by_cases hT : t > 1 ∨ t < -1
  · rw [AMSL293D.run, if_pos hT]
    exact ⟨rfl, rfl, rfl⟩
  · have hS : s > 1 ∨ s < -1 := by
      rcases h with h | h
      · exact absurd ((lt_abs.mp h).imp id (by intro h1; linarith)) hT
      · exact (lt_abs.mp h).imp id (by intro h1; linarith)
    rw [AMSL293D.run, if_neg hT, if_pos hS]
    exact ⟨rfl, rfl, rfl⟩

/-- Witness for C10: steering 1/4 with throttle 5/4, from state
(7/10, -3/10): state unchanged, no commands, error raised. -/
theorem amsl293d_run_invalid_is_atomic_witness :
    (|(5/4 : ℚ)| > 1 ∨ |(1/4 : ℚ)| > 1) ∧
    (AMSL293D.run (1/4) (5/4) ⟨7/10, -3/10⟩).state = ⟨7/10, -3/10⟩ ∧
    (AMSL293D.run (1/4) (5/4) ⟨7/10, -3/10⟩).cmds = [] ∧
    (AMSL293D.run (1/4) (5/4) ⟨7/10, -3/10⟩).error.isSome = true :=
  ⟨Or.inl (lt_abs.mpr (Or.inl (by norm_num))),
   amsl293d_run_invalid_is_atomic (1/4) (5/4) ⟨7/10, -3/10⟩
     (Or.inl (lt_abs.mpr (Or.inl (by norm_num))))⟩

end Donkeycar
